import Mathlib

/-
Shallow embedding of the solar-system ray caster (src/src: math.rs, renderer.rs,
shader.rs, color.rs).  All f32 arithmetic is modelled over the real numbers ℝ;
a separate small model `F32` with IEEE special values (NaN, ±∞) is used only
where a claim is specifically about non-finite channel handling.
-/

noncomputable section

namespace SolarSystem

/-- `Vec3` from src/src/math.rs (`pub type Vec3 = glm::Vec3`): three scalar
components, here over ℝ. -/
@[ext] structure Vec3 where
  x : ℝ
  y : ℝ
  z : ℝ

instance : Zero Vec3 := ⟨⟨0, 0, 0⟩⟩
instance : Add Vec3 := ⟨fun a b => ⟨a.x + b.x, a.y + b.y, a.z + b.z⟩⟩
instance : Sub Vec3 := ⟨fun a b => ⟨a.x - b.x, a.y - b.y, a.z - b.z⟩⟩
instance : Neg Vec3 := ⟨fun a => ⟨-a.x, -a.y, -a.z⟩⟩
instance : SMul ℝ Vec3 := ⟨fun s a => ⟨s * a.x, s * a.y, s * a.z⟩⟩

@[simp] theorem Vec3.zero_x : (0 : Vec3).x = 0 := rfl
@[simp] theorem Vec3.zero_y : (0 : Vec3).y = 0 := rfl
@[simp] theorem Vec3.zero_z : (0 : Vec3).z = 0 := rfl
@[simp] theorem Vec3.add_x (a b : Vec3) : (a + b).x = a.x + b.x := rfl
@[simp] theorem Vec3.add_y (a b : Vec3) : (a + b).y = a.y + b.y := rfl
@[simp] theorem Vec3.add_z (a b : Vec3) : (a + b).z = a.z + b.z := rfl
@[simp] theorem Vec3.sub_x (a b : Vec3) : (a - b).x = a.x - b.x := rfl
@[simp] theorem Vec3.sub_y (a b : Vec3) : (a - b).y = a.y - b.y := rfl
@[simp] theorem Vec3.sub_z (a b : Vec3) : (a - b).z = a.z - b.z := rfl
@[simp] theorem Vec3.neg_x (a : Vec3) : (-a).x = -a.x := rfl
@[simp] theorem Vec3.neg_y (a : Vec3) : (-a).y = -a.y := rfl
@[simp] theorem Vec3.neg_z (a : Vec3) : (-a).z = -a.z := rfl
@[simp] theorem Vec3.smul_x (s : ℝ) (a : Vec3) : (s • a).x = s * a.x := rfl
@[simp] theorem Vec3.smul_y (s : ℝ) (a : Vec3) : (s • a).y = s * a.y := rfl
@[simp] theorem Vec3.smul_z (s : ℝ) (a : Vec3) : (s • a).z = s * a.z := rfl

theorem Vec3.add_assoc (a b c : Vec3) : a + b + c = a + (b + c) := by
  ext <;> simp <;> ring

theorem Vec3.zero_add (a : Vec3) : 0 + a = a := by ext <;> simp

theorem Vec3.add_zero (a : Vec3) : a + 0 = a := by ext <;> simp

/-- `glm::dot` on Vec3. -/
def dotV (a b : Vec3) : ℝ := a.x * b.x + a.y * b.y + a.z * b.z

/-- `glm::normalize`: divide a vector by its Euclidean length. -/
def normalizeV (v : Vec3) : Vec3 := (1 / Real.sqrt (dotV v v)) • v

/-- `glm::cross` (needed for the look-at matrix of the camera). -/
def crossV (a b : Vec3) : Vec3 :=
  ⟨a.y * b.z - a.z * b.y, a.z * b.x - a.x * b.z, a.x * b.y - a.y * b.x⟩

/-- `Ray` from src/src/math.rs. -/
structure Ray where
  origin : Vec3
  direction : Vec3

/-- `Camera` from src/src/math.rs. -/
structure Camera where
  position : Vec3
  target : Vec3
  up : Vec3
  fov : ℝ
  aspect : ℝ

/-- Modelled from the library: `glm::look_at` (right-handed view matrix),
used by `Camera::get_ray`. -/
def look_at (eye center up : Vec3) : Matrix (Fin 4) (Fin 4) ℝ :=
  let f := normalizeV (center - eye)
  let s := normalizeV (crossV f up)
  let u := crossV s f
  Matrix.of ![![s.x, s.y, s.z, -(dotV s eye)],
              ![u.x, u.y, u.z, -(dotV u eye)],
              ![-f.x, -f.y, -f.z, dotV f eye],
              ![0, 0, 0, 1]]

/-- Modelled from the library: `glm::perspective(aspect, fovy, near, far)`
(right-handed, [-1,1] clip range), used by `Camera::get_ray`. -/
def perspective (aspect fovy near far : ℝ) : Matrix (Fin 4) (Fin 4) ℝ :=
  let tanHalf := Real.tan (fovy / 2)
  Matrix.of ![![1 / (aspect * tanHalf), 0, 0, 0],
              ![0, 1 / tanHalf, 0, 0],
              ![0, 0, -((far + near) / (far - near)), -((2 * far * near) / (far - near))],
              ![0, 0, -1, 0]]

/-- `Camera::get_ray` from src/src/math.rs: unproject the NDC point
`(2u-1, 2v-1, -1, 1)` through the inverses of the projection and view
matrices (dropping w, as `glm::vec4_to_vec3` does), then normalize the
direction from the camera position. -/
def Camera.get_ray (cam : Camera) (u v : ℝ) : Ray :=
  let view := look_at cam.position cam.target cam.up
  let proj := perspective cam.aspect cam.fov 0.1 100.0
  let inv_view := view⁻¹
  let inv_proj := proj⁻¹
  let np := inv_proj.mulVec ![u * 2 - 1, v * 2 - 1, -1, 1]
  let near_point : Vec3 := ⟨np 0, np 1, np 2⟩
  let wn := inv_view.mulVec ![near_point.x, near_point.y, near_point.z, 1]
  let world_near : Vec3 := ⟨wn 0, wn 1, wn 2⟩
  { origin := cam.position, direction := normalizeV (world_near - cam.position) }

/-- `Sphere` from src/src/math.rs. -/
structure Sphere where
  center : Vec3
  radius : ℝ

/-- `Sphere::intersect` from src/src/math.rs: solve the quadratic
`a t^2 + b t + c = 0`; no hit when the discriminant is negative; otherwise
the smaller root, reported only when strictly positive. -/
def Sphere.intersect (self : Sphere) (ray : Ray) : Option ℝ :=
  let oc := ray.origin - self.center
  let a := dotV ray.direction ray.direction
  let b := 2 * dotV oc ray.direction
  let c := dotV oc oc - self.radius * self.radius
  let discriminant := b * b - 4 * a * c
  if discriminant < 0 then
    none
  else
    let t := (-b - Real.sqrt discriminant) / (2 * a)
    if t > 0 then some t else none

/-- `Sphere::normal_at` from src/src/math.rs. -/
def Sphere.normal_at (self : Sphere) (point : Vec3) : Vec3 :=
  normalizeV (point - self.center)

/-- `intersect_sphere` from src/src/renderer.rs (sphere intersection with an
explicit center, textually identical to `Sphere::intersect`). -/
def intersect_sphere (center : Vec3) (radius : ℝ) (ray : Ray) : Option ℝ :=
  let oc := ray.origin - center
  let a := dotV ray.direction ray.direction
  let b := 2 * dotV oc ray.direction
  let c := dotV oc oc - radius * radius
  let disc := b * b - 4 * a * c
  if disc < 0 then
    none
  else
    let t := (-b - Real.sqrt disc) / (2 * a)
    if t > 0 then some t else none

theorem Sphere.intersect_eq (s : Sphere) (ray : Ray) :
    s.intersect ray = intersect_sphere s.center s.radius ray := rfl

/-- `rotate_point_around_y` from src/src/renderer.rs: rotate a point around
the world Y axis by `angle`, about the given `center`. -/
def rotate_point_around_y (p center : Vec3) (angle : ℝ) : Vec3 :=
  let rel := p - center
  let c := Real.cos angle
  let s := Real.sin angle
  let x := rel.x * c - rel.z * s
  let z := rel.x * s + rel.z * c
  ⟨x + center.x, rel.y + center.y, z + center.z⟩

/-- `rotate_vector_around_y` from src/src/renderer.rs: rotate a direction
vector around the world Y axis (no center, no translation). -/
def rotate_vector_around_y (v : Vec3) (angle : ℝ) : Vec3 :=
  let c := Real.cos angle
  let s := Real.sin angle
  ⟨v.x * c - v.z * s, v.y, v.x * s + v.z * c⟩

/-- `vec3_to_color` from src/src/renderer.rs: clamp each component with
`.min(1.0).max(0.0)`, scale by 255, truncate with `as u32`, and pack the
channels as `(r << 16) | (g << 8) | b`.  Truncation toward zero of a
nonnegative real is `Nat.floor`. -/
def vec3_to_color (v : Vec3) : ℕ :=
  let r := Nat.floor (max (min v.x 1) 0 * 255)
  let g := Nat.floor (max (min v.y 1) 0 * 255)
  let b := Nat.floor (max (min v.z 1) 0 * 255)
  (r <<< 16) ||| (g <<< 8) ||| b

/-! Procedural shaders, from src/src/shader.rs. -/

/-- `LIGHT_POS` from src/src/shader.rs. -/
def LIGHT_POS : Vec3 := ⟨-2, 0, -2⟩

/-- `saturate` from src/src/shader.rs: `x.max(0.0).min(1.0)`. -/
def saturate (x : ℝ) : ℝ := min (max x 0) 1

/-- `tri_noise` from src/src/shader.rs. -/
def tri_noise (p : Vec3) (freq t : ℝ) : ℝ :=
  let s := Real.sin (p.x * freq + t)
  let c := Real.cos (p.y * freq * 0.7 - t * 0.5)
  let d := Real.sin (p.z * freq * 0.3 + t * 0.3)
  saturate ((s * c * d + 1) * 0.5)

/-- `sun_shader` from src/src/shader.rs.  Rust `vec * scalar` is written
`scalar • vec`; the two `if`-guarded `+=` accumulations become conditional
rebindings; `powf(3.0)` on a nonnegative base is natural-number power. -/
def sun_shader (world_pos normal view : Vec3) (time : ℝ) : Vec3 :=
  let white_hot : Vec3 := ⟨1, 1, 0.98⟩
  let yellow_bright : Vec3 := ⟨1, 0.95, 0.2⟩
  let yellow_deep : Vec3 := ⟨0.95, 0.75, 0.15⟩
  let orange_dark : Vec3 := ⟨0.9, 0.4, 0⟩
  let spots := tri_noise world_pos 35 (time * 2.5)
  let yellow_var := tri_noise world_pos 18 (time * 1.4)
  let streaks := tri_noise world_pos 15 (time * 1.2)
  let streak_pattern :=
    |streaks * 1.5 + Real.sin (world_pos.x * 10 + time) * 0.5 +
      Real.cos (world_pos.y * 8 - time * 0.7) * 0.4 +
      Real.sin (world_pos.z * 6 + time * 0.3) * 0.3|
  let white_intensity := saturate ((spots - 0.8) * 4)
  let orange_intensity := saturate ((streak_pattern - 0.4) * 2.5)
  let yellow_mix := saturate (yellow_var * 1.2)
  let base_yellow := (1 - yellow_mix) • yellow_bright + yellow_mix • yellow_deep
  let combined0 := (0.7 + 0.5 * tri_noise world_pos 12 time) • base_yellow
  let combined1 :=
    if white_intensity > 0.1 then combined0 + (white_intensity * 0.9) • white_hot
    else combined0
  let combined2 :=
    if orange_intensity > 0 then combined1 + (orange_intensity * 0.9) • orange_dark
    else combined1
  let rim := (1 - saturate (dotV view normal)) ^ (3 : ℕ) * 0.4
  let combined3 := combined2 + rim • orange_dark
  (0.8 + 0.4 * tri_noise world_pos 25 (time * 1.8)) • combined3

/-- `rocky_shader` from src/src/shader.rs.  Its `_time` parameter is unused by
the body (the crater noise channel is sampled at t = 0). -/
def rocky_shader (world_pos normal view : Vec3) (_time : ℝ) : Vec3 :=
  let light_dir := normalizeV (LIGHT_POS - world_pos)
  let n_dot_l := saturate (dotV normal light_dir)
  let rock_dark : Vec3 := ⟨0.35, 0.23, 0.12⟩
  let rock_light : Vec3 := ⟨0.5, 0.5, 0.48⟩
  let lat := normal.y
  let bands := 0.5 + 0.5 * Real.sin (lat * 20)
  let base_color := (1 - bands) • rock_dark + bands • rock_light
  let crater := tri_noise world_pos 30 0
  let crater_mask := saturate ((crater - 0.5) * 3)
  let ambient := (0.3 : ℝ)
  let diffuse := n_dot_l * 0.7
  let final_color0 := (ambient + diffuse) • base_color
  let final_color1 := (1 - crater_mask * 0.3) • final_color0
  let half_vec := normalizeV (light_dir + view)
  let spec := saturate (dotV normal half_vec) ^ (32 : ℕ) * 0.4
  let final_color2 := final_color1 + (⟨spec, spec, spec⟩ : Vec3)
  let rim := (1 - saturate (dotV normal view)) ^ (3 : ℕ) * 0.14
  final_color2 + rim • (⟨0.9, 0.75, 0.55⟩ : Vec3)

/-- Modelled from the library: `f32::atan2(self = y, other = x)`. -/
def atan2 (y x : ℝ) : ℝ :=
  if 0 < x then Real.arctan (y / x)
  else if x < 0 ∧ 0 ≤ y then Real.arctan (y / x) + Real.pi
  else if x < 0 ∧ y < 0 then Real.arctan (y / x) - Real.pi
  else if x = 0 ∧ 0 < y then Real.pi / 2
  else if x = 0 ∧ y < 0 then -(Real.pi / 2)
  else 0

/-- `gas_giant_shader` from src/src/shader.rs. -/
def gas_giant_shader (world_pos normal view : Vec3) (time : ℝ) : Vec3 :=
  let lat := normal.y
  let lon := atan2 normal.x normal.z
  let flow := lon * 6 + time * 0.8 + Real.sin (lat * 10) * 0.5
  let turbulence := tri_noise world_pos 8 (time * 0.5)
  let bands := Real.sin (flow + turbulence * 2) * 0.5 + 0.5
  let color1 : Vec3 := ⟨0.95, 0.78, 0.48⟩
  let color2 : Vec3 := ⟨0.25, 0.55, 0.85⟩
  let base_color := bands • color1 + (1 - bands) • color2
  let light_dir := normalizeV (LIGHT_POS - world_pos)
  let n_dot_l := saturate (dotV normal light_dir)
  let ambient := (0.3 : ℝ)
  let diffuse := n_dot_l * 0.7
  let half_vec := normalizeV (light_dir + view)
  let spec := saturate (dotV normal half_vec) ^ (16 : ℕ) * 0.3
  let final_color0 := (ambient + diffuse) • base_color
  let final_color1 := final_color0 + (⟨spec, spec, spec⟩ : Vec3)
  let rim := (1 - saturate (dotV normal view)) ^ (3 : ℕ) * 0.2
  final_color1 + rim • (⟨0.6, 0.7, 0.95⟩ : Vec3)

/-! Scene and frame renderer, from src/src/renderer.rs. -/

/-- `WIDTH` from src/src/renderer.rs. -/
def WIDTH : ℕ := 800

/-- `HEIGHT` from src/src/renderer.rs. -/
def HEIGHT : ℕ := 600

/-- `Scene` from src/src/renderer.rs.  The star catalog entries are
`(direction, brightness, color)` triples, as in the source. -/
structure Scene where
  camera : Camera
  sun : Sphere
  rocky_planet : Sphere
  gas_giant : Sphere
  stars : List (Vec3 × ℝ × Vec3)
  sky_rotation : ℝ
  rocky_orbit_center : Vec3
  rocky_orbit_radius : ℝ
  rocky_orbit_speed : ℝ
  rocky_spin_speed : ℝ
  gas_orbit_center : Vec3
  gas_orbit_radius : ℝ
  gas_orbit_speed : ℝ
  gas_spin_speed : ℝ

/-- `Scene::new` from src/src/renderer.rs.  The star catalog is produced by
`rand::thread_rng` in the source (an external effect), so it is taken here as
a parameter; every other field is the deterministic constant from the source
(`45.0_f32.to_radians()` is `45 * π / 180`). -/
def Scene.new (stars : List (Vec3 × ℝ × Vec3)) : Scene where
  camera :=
    { position := ⟨0, 0, 10⟩
      target := ⟨0, 0, 0⟩
      up := ⟨0, 1, 0⟩
      fov := 45 * (Real.pi / 180)
      aspect := (WIDTH : ℝ) / (HEIGHT : ℝ) }
  sun := { center := ⟨0, 0, 0⟩, radius := 1 }
  rocky_planet := { center := ⟨2, 0, 0⟩, radius := 0.5 }
  gas_giant := { center := ⟨3.5, 0, 0⟩, radius := 0.8 }
  stars := stars
  sky_rotation := 0
  rocky_orbit_center := ⟨0, 0, 0⟩
  rocky_orbit_radius := 2
  rocky_orbit_speed := 0.6
  rocky_spin_speed := 2
  gas_orbit_center := ⟨0, 0, 0⟩
  gas_orbit_radius := 3.5
  gas_orbit_speed := 0.3
  gas_spin_speed := 1.2

/-- The hit record returned by `Scene::ray_intersect`
(`(t, point, normal, type)` with type 1 = sun, 2 = rocky, 3 = gas). -/
structure Hit where
  t : ℝ
  point : Vec3
  normal : Vec3
  ty : ℕ

/-- One `if t < closest_hit { replace the current best }` step of
`Scene::ray_intersect`; `closest_hit` starts at `f32::INFINITY`, so an empty
best is always replaced. -/
def updateBest (best : Option Hit) (t : ℝ) (point normal : Vec3) (ty : ℕ) :
    Option Hit :=
  match best with
  | none => some ⟨t, point, normal, ty⟩
  | some b => if t < b.t then some ⟨t, point, normal, ty⟩ else some b

/-- The rocky planet's orbital center, as computed inline (twice, with the
same expression) in `Scene::ray_intersect` and `Scene::ray_casting`:
`rocky_orbit_center + rocky_orbit_radius * (cos θ, 0, sin θ)` with
`θ = rocky_orbit_speed * time`. -/
def Scene.rocky_center (s : Scene) (time : ℝ) : Vec3 :=
  let rocky_angle := s.rocky_orbit_speed * time
  ⟨s.rocky_orbit_center.x + s.rocky_orbit_radius * Real.cos rocky_angle,
   s.rocky_orbit_center.y,
   s.rocky_orbit_center.z + s.rocky_orbit_radius * Real.sin rocky_angle⟩

/-- The gas giant's orbital center, as computed inline in
`Scene::ray_intersect` and `Scene::ray_casting`. -/
def Scene.gas_center (s : Scene) (time : ℝ) : Vec3 :=
  let gas_angle := s.gas_orbit_speed * time
  ⟨s.gas_orbit_center.x + s.gas_orbit_radius * Real.cos gas_angle,
   s.gas_orbit_center.y,
   s.gas_orbit_center.z + s.gas_orbit_radius * Real.sin gas_angle⟩

/-- `Scene::ray_intersect` from src/src/renderer.rs: test the sun, then the
rocky planet at its orbital center, then the gas giant at its orbital center,
keeping the closest hit (strictly-smaller-t replacement). -/
def Scene.ray_intersect (s : Scene) (ray : Ray) (time : ℝ) : Option Hit :=
  let best0 : Option Hit := none
  let best1 :=
    match s.sun.intersect ray with
    | none => best0
    | some t =>
      let point := ray.origin + t • ray.direction
      updateBest best0 t point (s.sun.normal_at point) 1
  let best2 :=
    match intersect_sphere (s.rocky_center time) s.rocky_planet.radius ray with
    | none => best1
    | some t =>
      let point := ray.origin + t • ray.direction
      updateBest best1 t point (normalizeV (point - s.rocky_center time)) 2
  let best3 :=
    match intersect_sphere (s.gas_center time) s.gas_giant.radius ray with
    | none => best2
    | some t =>
      let point := ray.origin + t • ray.direction
      updateBest best2 t point (normalizeV (point - s.gas_center time)) 3
  best3

/-- The view-direction rotation at the top of `Scene::skybox_color`
(src/src/renderer.rs lines 274-278): rotate `dir` around Y using
`rx = c*dir.x + s*dir.z`, `rz = -s*dir.x + c*dir.z`. -/
def rotY (dir : Vec3) (rotation : ℝ) : Vec3 :=
  let c := Real.cos rotation
  let s := Real.sin rotation
  ⟨c * dir.x + s * dir.z, dir.y, -s * dir.x + c * dir.z⟩

/-- The star-brightness threshold constant in `Scene::skybox_color`. -/
def threshold : ℝ := 0.9995

/-- The ambient space color added in `Scene::skybox_color`. -/
def space_color : Vec3 := ⟨0.02, 0.03, 0.06⟩

/-- The body of the star-accumulation loop of `Scene::skybox_color`
(src/src/renderer.rs lines 282-291): when the rotated direction's dot product
with the star's direction exceeds the threshold, add the star's color scaled
by the squared soft-falloff intensity times its brightness (`color *
intensity` in the source is `intensity • color`). -/
def skyStep (rdir accum : Vec3) (st : Vec3 × ℝ × Vec3) : Vec3 :=
  let d := dotV rdir st.1
  if d > threshold then
    accum + (((d - threshold) / (1 - threshold)) ^ (2 : ℕ) * st.2.1) • st.2.2
  else accum

/-- `Scene::skybox_color` from src/src/renderer.rs: rotate the direction,
accumulate each star's soft-falloff contribution when its dot product exceeds
the threshold, then add the ambient space color. -/
def Scene.skybox_color (s : Scene) (dir : Vec3) (rotation : ℝ) : Vec3 :=
  let rdir := rotY dir rotation
  let accum := s.stars.foldl (skyStep rdir) (⟨0, 0, 0⟩ : Vec3)
  space_color + accum

/-- The per-hit shading match inside `Scene::ray_casting`
(src/src/renderer.rs lines 168-204), factored out of the pixel loop: sun
shader for type 1; for the orbiting bodies, de-spin point and normal around Y
by `-(spin_speed * time)` about the recomputed orbital center, then shade;
skybox on a miss. -/
def Scene.shadeRay (s : Scene) (ray : Ray) (time : ℝ) : ℕ :=
  match s.ray_intersect ray time with
  | some h =>
    match h.ty with
    | 1 => vec3_to_color (sun_shader h.point h.normal ray.direction time)
    | 2 =>
      let rocky_spin := s.rocky_spin_speed * time
      let rocky_angle := -rocky_spin
      let rp := rotate_point_around_y h.point (s.rocky_center time) rocky_angle
      let rn := rotate_vector_around_y h.normal rocky_angle
      vec3_to_color (rocky_shader rp rn ray.direction time)
    | 3 =>
      let gas_spin := s.gas_spin_speed * time
      let gas_angle := -gas_spin
      let rp := rotate_point_around_y h.point (s.gas_center time) gas_angle
      let rn := rotate_vector_around_y h.normal gas_angle
      vec3_to_color (gas_giant_shader rp rn ray.direction time)
    | _ => 0
  | none =>
    vec3_to_color (s.skybox_color ray.direction (s.sky_rotation + time * 0.05))

/-- One pixel of `Scene::ray_casting`: `u = x / WIDTH`,
`v = 1 - y / HEIGHT`, generate the camera ray, shade it. -/
def Scene.renderPixel (s : Scene) (time : ℝ) (x y : ℕ) : ℕ :=
  let u := (x : ℝ) / (WIDTH : ℝ)
  let v := 1 - (y : ℝ) / (HEIGHT : ℝ)
  s.shadeRay (s.camera.get_ray u v) time

/-- `Scene::ray_casting` from src/src/renderer.rs: map each row index to a
row of pixels (the rayon parallel map is order-preserving, so it is a map),
then flatten the rows into one buffer with the `buffer.extend(r)` loop. -/
def Scene.ray_casting (s : Scene) (time : ℝ) : List ℕ :=
  let rows : List (List ℕ) :=
    (List.range HEIGHT).map fun y =>
      (List.range WIDTH).map fun x => s.renderPixel time x y
  rows.foldl (fun buffer r => buffer ++ r) []

/-- `Scene::render` from src/src/renderer.rs: delegates to `ray_casting`. -/
def Scene.render (s : Scene) (time : ℝ) : List ℕ :=
  s.ray_casting time

/-- The sequential per-pixel rendering of the same frame: one flat row-major
map over all `WIDTH * HEIGHT` pixel indices (the spec's "sequential instead
of the parallel per-row map" reading of the renderer). -/
def renderSeq (s : Scene) (time : ℝ) : List ℕ :=
  (List.range (HEIGHT * WIDTH)).map fun i =>
    s.renderPixel time (i % WIDTH) (i / WIDTH)

/-! A small model of `f32` with IEEE special values (finite reals, NaN, ±∞),
used to settle the claims about non-finite channel handling in the packing
functions.  Only the operations those functions use are modelled. -/

/-- An `f32` value: a finite real, NaN, or a signed infinity. -/
inductive F32 where
  | fin (x : ℝ)
  | nan
  | inf
  | ninf

/-- `f32::is_finite`. -/
def F32.isFinite : F32 → Bool
  | .fin _ => true
  | _ => false

/-- Modelled from the library: `f32::min` — if one argument is NaN the other
is returned; otherwise the smaller, with the usual infinity ordering. -/
def F32.fmin : F32 → F32 → F32
  | .nan, b => b
  | a, .nan => a
  | .ninf, _ => .ninf
  | _, .ninf => .ninf
  | .inf, b => b
  | a, .inf => a
  | .fin x, .fin y => .fin (min x y)

/-- Modelled from the library: `f32::max` — if one argument is NaN the other
is returned; otherwise the larger. -/
def F32.fmax : F32 → F32 → F32
  | .nan, b => b
  | a, .nan => a
  | .inf, _ => .inf
  | _, .inf => .inf
  | .ninf, b => b
  | a, .ninf => a
  | .fin x, .fin y => .fin (max x y)

/-- Multiplication of an `f32` by a positive finite constant (the only
multiplications the packing functions perform are by 255). -/
def F32.mulPos (a : F32) (c : ℝ) : F32 :=
  match a with
  | .fin x => .fin (x * c)
  | .nan => .nan
  | .inf => .inf
  | .ninf => .ninf

/-- Addition of a finite constant to an `f32` (used for the `+ 0.5` rounding
step of `Color::clamp_u8`). -/
def F32.addConst (a : F32) (c : ℝ) : F32 :=
  match a with
  | .fin x => .fin (x + c)
  | .nan => .nan
  | .inf => .inf
  | .ninf => .ninf

/-- Modelled from the library: Rust's saturating float-to-integer cast
`as u32` — NaN goes to 0, values are truncated toward zero and clamped to
the target range. -/
def F32.asU32 : F32 → ℕ
  | .fin x => min (Nat.floor (max x 0)) (2 ^ 32 - 1)
  | .nan => 0
  | .inf => 2 ^ 32 - 1
  | .ninf => 0

/-- Modelled from the library: Rust's saturating cast `as u8`. -/
def F32.asU8 : F32 → ℕ
  | .fin x => min (Nat.floor (max x 0)) 255
  | .nan => 0
  | .inf => 255
  | .ninf => 0

/-- A color vector whose components are modelled `f32` values. -/
structure FVec3 where
  x : F32
  y : F32
  z : F32

/-- One channel of `vec3_to_color` from src/src/renderer.rs over the `f32`
model: `(v.min(1.0).max(0.0) * 255.0) as u32`. -/
def color_channel (v : F32) : ℕ :=
  (((v.fmin (.fin 1)).fmax (.fin 0)).mulPos 255).asU32

/-- `vec3_to_color` from src/src/renderer.rs over the `f32` model: the same
per-channel expression applied to each component, packed as
`(r << 16) | (g << 8) | b`. -/
def vec3_to_colorF (v : FVec3) : ℕ :=
  let r := color_channel v.x
  let g := color_channel v.y
  let b := color_channel v.z
  (r <<< 16) ||| (g <<< 8) ||| b

/-- `Color` from src/src/color.rs, over the `f32` model. -/
structure Color where
  r : F32
  g : F32
  b : F32

/-- The inner helper `c` of `Color::clamp_u8` from src/src/color.rs:
replace a non-finite value by 0.0, then `(v.max(0.0).min(1.0) * 255.0 + 0.5)
as u8` (round-to-nearest by adding one half before truncation). -/
def clamp_u8_channel (v : F32) : ℕ :=
  let v' := if v.isFinite then v else .fin 0
  ((((v'.fmax (.fin 0)).fmin (.fin 1)).mulPos 255).addConst 0.5).asU8

/-- `Color::clamp_u8` from src/src/color.rs: the guarded rounding clamp
applied to each channel. -/
def Color.clamp_u8 (self : Color) : ℕ × ℕ × ℕ :=
  (clamp_u8_channel self.r, clamp_u8_channel self.g, clamp_u8_channel self.b)

/-! Theorems. -/

theorem clamp01_idem (x : ℝ) :
    max (min (max (min x 1) 0) 1) 0 = max (min x 1) 0 := by
  rcases le_total x 1 with h | h <;> rcases le_total x 0 with h0 | h0 <;>
    simp [min_def, max_def] <;> split_ifs <;> linarith

/-- C9: the rocky-body shader ignores its time argument — for every world
point, normal, and view direction it returns the same color at any two time
values (its crater-noise channel is sampled at t = 0), so all time variation
of the rocky body's appearance comes from the de-spin rotation applied before
the shader is called. -/
theorem claim_C9_rocky_shader_time_independent
    (world_pos normal view : Vec3) (t₁ t₂ : ℝ) :
    rocky_shader world_pos normal view t₁ = rocky_shader world_pos normal view t₂ :=
  rfl

/-- C5: the render path's packing function `vec3_to_color` clamps each
component to [0,1] before packing (packing a vector and packing its clamped
vector agree), maps (1,0,0) to 0xFF0000 and (0,0,0) to 0x000000, truncates
toward zero with no rounding (0.999·255 = 254.745 packs the channel to 254),
in contrast with the separate utility `Color::clamp_u8`, which rounds the
same channel value to 255. -/
theorem claim_C5_packing :
    (∀ v : Vec3, vec3_to_color v =
        vec3_to_color ⟨max (min v.x 1) 0, max (min v.y 1) 0, max (min v.z 1) 0⟩)
    ∧ vec3_to_color ⟨1, 0, 0⟩ = 0xFF0000
    ∧ vec3_to_color ⟨0, 0, 0⟩ = 0x000000
    ∧ vec3_to_color ⟨999 / 1000, 0, 0⟩ = 254 <<< 16
    ∧ clamp_u8_channel (.fin (999 / 1000)) = 255 := by
  have ch0 : Nat.floor (max (min (0 : ℝ) 1) 0 * 255) = 0 := by
    rw [min_eq_left (by norm_num), max_self]
    norm_num
  have ch1 : Nat.floor (max (min (1 : ℝ) 1) 0 * 255) = 255 := by
    rw [min_self, max_eq_left (by norm_num)]
    norm_num
  have chT : Nat.floor (max (min ((999 : ℝ) / 1000) 1) 0 * 255) = 254 := by
    rw [min_eq_left (by norm_num), max_eq_left (by norm_num),
      Nat.floor_eq_iff (by norm_num)]
    norm_num
  refine ⟨fun v => ?_, ?_, ?_, ?_, ?_⟩
  · simp only [vec3_to_color, clamp01_idem]
  · simp only [vec3_to_color, ch0, ch1]
    decide
  · simp only [vec3_to_color, ch0]
    decide
  · simp only [vec3_to_color, ch0, chT]
    decide
  · have h1 : max ((999 : ℝ) / 1000) 0 = 999 / 1000 := max_eq_left (by norm_num)
    have h2 : min ((999 : ℝ) / 1000) 1 = 999 / 1000 := min_eq_left (by norm_num)
    have h3 : max ((999 : ℝ) / 1000 * 255 + 0.5) 0 = 999 / 1000 * 255 + 0.5 :=
      max_eq_left (by norm_num)
    have h4 : Nat.floor ((999 : ℝ) / 1000 * 255 + 0.5) = 255 := by
      rw [Nat.floor_eq_iff (by norm_num)]
      norm_num
    simp [clamp_u8_channel, F32.isFinite, F32.fmax, F32.fmin, F32.mulPos,
      F32.addConst, F32.asU8, h1, h2, h3, h4]

/-- C6 counterexample: the claim says the render path's packing maps a NaN or
infinite channel to the safe default 0, but `vec3_to_color` has no finiteness
guard: Rust's `min` drops a NaN argument, so a NaN red channel clamps to 1
and packs to byte 255, giving 0xFF0000 rather than 0x000000. -/
theorem claim_C6_counterexample :
    vec3_to_colorF ⟨.nan, .fin 0, .fin 0⟩ = 0xFF0000 ∧
      vec3_to_colorF ⟨.nan, .fin 0, .fin 0⟩ ≠ 0x000000 := by
  have h : vec3_to_colorF ⟨.nan, .fin 0, .fin 0⟩ = 0xFF0000 := by
    simp only [vec3_to_colorF, color_channel, F32.fmin, F32.fmax, F32.mulPos, F32.asU32]
    norm_num
    decide
  exact ⟨h, by rw [h]; norm_num⟩

/-- C6 amended: the render path's packing (`vec3_to_color`) does not guard
non-finite values — its `min`/`max` clamp maps a NaN or +∞ channel to byte
255 and a -∞ channel to byte 0; only the separate (unused) utility
`Color::clamp_u8` maps every non-finite channel value to the safe default 0. -/
theorem claim_C6_amended :
    color_channel .nan = 255 ∧ color_channel .inf = 255 ∧ color_channel .ninf = 0
    ∧ (∀ c : F32, c.isFinite = false → clamp_u8_channel c = 0) := by
  refine ⟨?_, ?_, ?_, fun c hc => ?_⟩
  · simp only [color_channel, F32.fmin, F32.fmax, F32.mulPos, F32.asU32]
    norm_num
  · simp only [color_channel, F32.fmin, F32.fmax, F32.mulPos, F32.asU32]
    norm_num
  · simp only [color_channel, F32.fmin, F32.fmax, F32.mulPos, F32.asU32]
    norm_num
  · simp only [clamp_u8_channel, hc, Bool.false_eq_true, if_false,
      F32.fmax, F32.fmin, F32.mulPos, F32.addConst, F32.asU8]
    norm_num

/-- C6 amended witness: the non-finite guard of `Color::clamp_u8`, applied at
the concrete channel value NaN. -/
theorem claim_C6_amended_witness :
    F32.nan.isFinite = false ∧ clamp_u8_channel .nan = 0 :=
  ⟨rfl, claim_C6_amended.2.2.2 .nan rfl⟩

/-- The spec's orbital-kinematics function, written with vector operations as
the spec states it: `base + radius * (cos(angularSpeed*t), 0, sin(angularSpeed*t))`. -/
def orbitCenterSpec (base : Vec3) (radius angularSpeed t : ℝ) : Vec3 :=
  base + radius • (⟨Real.cos (angularSpeed * t), 0, Real.sin (angularSpeed * t)⟩ : Vec3)

/-- C8: the orbit centers the scene intersection uses for the rocky body and
the gas giant are exactly `base + radius * (cos(speed*t), 0, sin(speed*t))`
(circular motion in the X-Z plane); at t = 0 the center is
`base + (radius, 0, 0)`, and the position is periodic with period
`2π / angularSpeed`. -/
theorem claim_C8_orbit_center :
    (∀ (s : Scene) (time : ℝ),
        s.rocky_center time =
          orbitCenterSpec s.rocky_orbit_center s.rocky_orbit_radius s.rocky_orbit_speed time)
    ∧ (∀ (s : Scene) (time : ℝ),
        s.gas_center time =
          orbitCenterSpec s.gas_orbit_center s.gas_orbit_radius s.gas_orbit_speed time)
    ∧ (∀ (base : Vec3) (radius angularSpeed : ℝ),
        orbitCenterSpec base radius angularSpeed 0 = base + (⟨radius, 0, 0⟩ : Vec3))
    ∧ (∀ (base : Vec3) (radius angularSpeed t : ℝ), angularSpeed ≠ 0 →
        orbitCenterSpec base radius angularSpeed (t + 2 * Real.pi / angularSpeed) =
          orbitCenterSpec base radius angularSpeed t) := by
  refine ⟨fun s time => ?_, fun s time => ?_, fun base radius ω => ?_,
    fun base radius ω t hω => ?_⟩
  · ext <;> simp [Scene.rocky_center, orbitCenterSpec]
  · ext <;> simp [Scene.gas_center, orbitCenterSpec]
  · ext <;> simp [orbitCenterSpec]
  · have harg : ω * (t + 2 * Real.pi / ω) = ω * t + 2 * Real.pi := by
      field_simp
      ring
    simp only [orbitCenterSpec, harg, Real.cos_add_two_pi, Real.sin_add_two_pi]

/-- C8 witness: periodicity applied at the concrete orbit
(base 0, radius 1, angular speed 1, t = 0). -/
theorem claim_C8_orbit_center_witness :
    (1 : ℝ) ≠ 0 ∧
      orbitCenterSpec 0 1 1 (0 + 2 * Real.pi / 1) = orbitCenterSpec 0 1 1 0 :=
  ⟨one_ne_zero, claim_C8_orbit_center.2.2.2 0 1 1 0 one_ne_zero⟩

theorem dotV_smul_left (s : ℝ) (a b : Vec3) : dotV (s • a) b = s * dotV a b := by
  simp [dotV]
  ring

theorem dotV_smul_right (s : ℝ) (a b : Vec3) : dotV a (s • b) = s * dotV a b := by
  simp [dotV]
  ring

/-- The coefficient `a = dir·dir` of the ray-sphere quadratic in
`intersect_sphere` and `Sphere::intersect`. -/
def quadA (ray : Ray) : ℝ := dotV ray.direction ray.direction

/-- The coefficient `b = 2·(origin-center)·dir` of the ray-sphere quadratic. -/
def quadB (center : Vec3) (ray : Ray) : ℝ :=
  2 * dotV (ray.origin - center) ray.direction

/-- The coefficient `c = (origin-center)·(origin-center) - radius²` of the
ray-sphere quadratic. -/
def quadC (center : Vec3) (radius : ℝ) (ray : Ray) : ℝ :=
  dotV (ray.origin - center) (ray.origin - center) - radius * radius

/-- The discriminant `b² - 4ac` of the ray-sphere quadratic. -/
def quadDisc (center : Vec3) (radius : ℝ) (ray : Ray) : ℝ :=
  quadB center ray * quadB center ray - 4 * quadA ray * quadC center radius ray

theorem intersect_sphere_eq_quad (center : Vec3) (radius : ℝ) (ray : Ray) :
    intersect_sphere center radius ray =
      if quadDisc center radius ray < 0 then none
      else if (-quadB center ray - Real.sqrt (quadDisc center radius ray)) /
          (2 * quadA ray) > 0 then
        some ((-quadB center ray - Real.sqrt (quadDisc center radius ray)) /
          (2 * quadA ray))
      else none := rfl

/-- C3: the intersection routine reports no hit when the discriminant is
negative; otherwise it returns the smaller root exactly when it is strictly
positive (the iff characterization); `Sphere::intersect` and the renderer's
`intersect_sphere` compute the same function.  Consequently a unit-direction
ray aimed from distance d > radius straight at the center hits at exactly
t = d - radius, and a ray aimed straight away from the center yields no hit. -/
theorem claim_C3_sphere_intersection :
    (∀ (center : Vec3) (radius : ℝ) (ray : Ray),
        Sphere.intersect ⟨center, radius⟩ ray = intersect_sphere center radius ray)
    ∧ (∀ (center : Vec3) (radius : ℝ) (ray : Ray),
        quadDisc center radius ray < 0 → intersect_sphere center radius ray = none)
    ∧ (∀ (center : Vec3) (radius : ℝ) (ray : Ray) (t : ℝ),
        intersect_sphere center radius ray = some t ↔
          0 ≤ quadDisc center radius ray ∧
          t = (-quadB center ray - Real.sqrt (quadDisc center radius ray)) /
            (2 * quadA ray) ∧
          0 < t)
    ∧ (∀ (origin center : Vec3) (radius d : ℝ), 0 < radius → radius < d →
        dotV (origin - center) (origin - center) = d ^ 2 →
        intersect_sphere center radius ⟨origin, (1 / d) • (center - origin)⟩ =
          some (d - radius))
    ∧ (∀ (origin center : Vec3) (radius d : ℝ), 0 < radius → radius < d →
        dotV (origin - center) (origin - center) = d ^ 2 →
        intersect_sphere center radius ⟨origin, (1 / d) • (origin - center)⟩ =
          none) := by
  refine ⟨fun center radius ray => rfl, fun center radius ray h => ?_,
    fun center radius ray t => ?_, fun o c radius d hr hrd hq => ?_,
    fun o c radius d hr hrd hq => ?_⟩
  · rw [intersect_sphere_eq_quad, if_pos h]
  · rw [intersect_sphere_eq_quad]
    split_ifs with h1 h2
    · constructor
      · intro h
        simp at h
      · rintro ⟨h0, -, -⟩
        linarith
    · simp only [Option.some.injEq]
      constructor
      · rintro rfl
        exact ⟨not_lt.1 h1, rfl, h2⟩
      · rintro ⟨-, rfl, -⟩
        rfl
    · constructor
      · intro h
        simp at h
      · rintro ⟨-, rfl, hpos⟩
        exact absurd hpos h2
  · have hd : d ≠ 0 := ne_of_gt (hr.trans hrd)
    have hcc : dotV (c - o) (c - o) = d ^ 2 := by
      simp only [dotV, Vec3.sub_x, Vec3.sub_y, Vec3.sub_z] at hq ⊢
      linear_combination hq
    have hco : dotV (o - c) (c - o) = -(d ^ 2) := by
      simp only [dotV, Vec3.sub_x, Vec3.sub_y, Vec3.sub_z] at hq ⊢
      linear_combination -hq
    have hA : quadA ⟨o, (1 / d) • (c - o)⟩ = 1 := by
      simp only [quadA]
      rw [dotV_smul_left, dotV_smul_right, hcc]
      field_simp
      ring
    have hB : quadB c ⟨o, (1 / d) • (c - o)⟩ = -(2 * d) := by
      simp only [quadB]
      rw [dotV_smul_right, hco]
      field_simp
      ring
    have hC : quadC c radius ⟨o, (1 / d) • (c - o)⟩ = d ^ 2 - radius * radius := by
      simp only [quadC]
      rw [hq]
    have hDisc : quadDisc c radius ⟨o, (1 / d) • (c - o)⟩ = (2 * radius) ^ 2 := by
      simp only [quadDisc, hA, hB, hC]
      ring
    rw [intersect_sphere_eq_quad, hDisc, hA, hB, if_neg (not_lt.2 (by positivity))]
    rw [Real.sqrt_sq (by positivity)]
    rw [show (-(-(2 * d)) - 2 * radius) / (2 * 1) = d - radius by ring]
    rw [if_pos (by linarith)]
  · have hd : d ≠ 0 := ne_of_gt (hr.trans hrd)
    have hoo : dotV (o - c) (o - c) = d ^ 2 := hq
    have hA : quadA ⟨o, (1 / d) • (o - c)⟩ = 1 := by
      simp only [quadA]
      rw [dotV_smul_left, dotV_smul_right, hoo]
      field_simp
      ring
    have hB : quadB c ⟨o, (1 / d) • (o - c)⟩ = 2 * d := by
      simp only [quadB]
      rw [dotV_smul_right, hoo]
      field_simp
      ring
    have hC : quadC c radius ⟨o, (1 / d) • (o - c)⟩ = d ^ 2 - radius * radius := by
      simp only [quadC]
      rw [hq]
    have hDisc : quadDisc c radius ⟨o, (1 / d) • (o - c)⟩ = (2 * radius) ^ 2 := by
      simp only [quadDisc, hA, hB, hC]
      ring
    rw [intersect_sphere_eq_quad, hDisc, hA, hB, if_neg (not_lt.2 (by positivity))]
    rw [Real.sqrt_sq (by positivity)]
    rw [show (-(2 * d) - 2 * radius) / (2 * 1) = -(d + radius) by ring]
    rw [if_neg (not_lt.2 (neg_nonpos.2 (by linarith)))]

/-- C3 witness: a unit ray from (0,0,5) aimed at a unit sphere at the origin
(distance 5) hits at t = 4. -/
theorem claim_C3_sphere_intersection_witness :
    (0 : ℝ) < 1 ∧ (1 : ℝ) < 5 ∧
      dotV ((⟨0, 0, 5⟩ : Vec3) - 0) ((⟨0, 0, 5⟩ : Vec3) - 0) = 5 ^ 2 ∧
      intersect_sphere 0 1 ⟨⟨0, 0, 5⟩, ((1 : ℝ) / 5) • ((0 : Vec3) - ⟨0, 0, 5⟩)⟩ =
        some (5 - 1) :=
  ⟨by norm_num, by norm_num, by simp [dotV]; norm_num,
    claim_C3_sphere_intersection.2.2.2.1 ⟨0, 0, 5⟩ 0 1 5 (by norm_num) (by norm_num)
      (by simp [dotV]; norm_num)⟩

theorem inside_sqrt_abs (center : Vec3) (radius : ℝ) (ray : Ray)
    (hin : dotV (ray.origin - center) (ray.origin - center) < radius * radius)
    (hdir : 0 < dotV ray.direction ray.direction) :
    |quadB center ray| < Real.sqrt (quadDisc center radius ray) := by
  have hC : quadC center radius ray < 0 := by
    simp only [quadC]
    linarith
  have hBB : |quadB center ray| ^ 2 < quadDisc center radius ray := by
    rw [sq_abs]
    simp only [quadDisc, quadA]
    nlinarith
  exact (Real.lt_sqrt (abs_nonneg _)).2 hBB

theorem intersect_inside_none (center : Vec3) (radius : ℝ) (ray : Ray)
    (hin : dotV (ray.origin - center) (ray.origin - center) < radius * radius)
    (hdir : 0 < dotV ray.direction ray.direction) :
    intersect_sphere center radius ray = none := by
  have habs := inside_sqrt_abs center radius ray hin hdir
  have h0 : ¬ quadDisc center radius ray < 0 := by
    intro hneg
    rw [Real.sqrt_eq_zero_of_nonpos hneg.le] at habs
    exact absurd habs (not_lt.2 (abs_nonneg _))
  have hnum : -quadB center ray - Real.sqrt (quadDisc center radius ray) < 0 := by
    linarith [neg_le_abs (quadB center ray)]
  have hroot :
      (-quadB center ray - Real.sqrt (quadDisc center radius ray)) /
        (2 * quadA ray) < 0 :=
    div_neg_of_neg_of_pos hnum (by simp only [quadA] at hdir ⊢; linarith)
  rw [intersect_sphere_eq_quad, if_neg h0, if_neg (not_lt.2 hroot.le)]

/-- A concrete scene whose three bodies are all unit spheres centered at the
world origin (orbit radii 0), with a one-star catalog; used to exercise the
inside-a-body and skybox claims at concrete inputs. -/
def insideScene : Scene where
  camera := ⟨⟨0, 0, 10⟩, 0, ⟨0, 1, 0⟩, 1, 1⟩
  sun := ⟨0, 1⟩
  rocky_planet := ⟨0, 1⟩
  gas_giant := ⟨0, 1⟩
  stars := [(⟨0, 0, 1⟩, 1 / 2, ⟨1, 1, 1⟩)]
  sky_rotation := 0
  rocky_orbit_center := 0
  rocky_orbit_radius := 0
  rocky_orbit_speed := 1
  rocky_spin_speed := 1
  gas_orbit_center := 0
  gas_orbit_radius := 0
  gas_orbit_speed := 1
  gas_spin_speed := 1

/-- A concrete ray starting at the world origin — strictly inside all three
bodies of `insideScene`. -/
def insideRay : Ray := ⟨0, ⟨0, 0, 1⟩⟩

/-- C10: a ray whose origin is strictly inside a sphere is reported as no hit
(the smaller quadratic root is negative even though the larger root — never
considered by the code — is strictly positive), by both `intersect_sphere`
and `Sphere::intersect`; consequently, a ray cast from inside all three
bodies misses the whole scene and is shaded with the skybox color. -/
theorem claim_C10_inside_sphere_no_hit :
    (∀ (center : Vec3) (radius : ℝ) (ray : Ray),
        dotV (ray.origin - center) (ray.origin - center) < radius * radius →
        0 < dotV ray.direction ray.direction →
        intersect_sphere center radius ray = none ∧
          Sphere.intersect ⟨center, radius⟩ ray = none ∧
          0 < (-quadB center ray + Real.sqrt (quadDisc center radius ray)) /
              (2 * quadA ray))
    ∧ (∀ (s : Scene) (ray : Ray) (time : ℝ),
        dotV (ray.origin - s.sun.center) (ray.origin - s.sun.center) <
            s.sun.radius * s.sun.radius →
        dotV (ray.origin - s.rocky_center time) (ray.origin - s.rocky_center time) <
            s.rocky_planet.radius * s.rocky_planet.radius →
        dotV (ray.origin - s.gas_center time) (ray.origin - s.gas_center time) <
            s.gas_giant.radius * s.gas_giant.radius →
        0 < dotV ray.direction ray.direction →
        s.ray_intersect ray time = none ∧
          s.shadeRay ray time =
            vec3_to_color (s.skybox_color ray.direction (s.sky_rotation + time * 0.05))) := by
  have main : ∀ (center : Vec3) (radius : ℝ) (ray : Ray),
      dotV (ray.origin - center) (ray.origin - center) < radius * radius →
      0 < dotV ray.direction ray.direction →
      intersect_sphere center radius ray = none ∧
        Sphere.intersect ⟨center, radius⟩ ray = none ∧
        0 < (-quadB center ray + Real.sqrt (quadDisc center radius ray)) /
            (2 * quadA ray) := by
    intro center radius ray hin hdir
    have habs := inside_sqrt_abs center radius ray hin hdir
    refine ⟨intersect_inside_none center radius ray hin hdir, ?_, ?_⟩
    · rw [Sphere.intersect_eq]
      exact intersect_inside_none center radius ray hin hdir
    · refine div_pos ?_ (by simp only [quadA] at hdir ⊢; linarith)
      linarith [le_abs_self (quadB center ray)]
  refine ⟨main, fun s ray time h1 h2 h3 hdir => ?_⟩
  have hs : s.sun.intersect ray = none := by
    rw [Sphere.intersect_eq]
    exact intersect_inside_none s.sun.center s.sun.radius ray h1 hdir
  have hrk : intersect_sphere (s.rocky_center time) s.rocky_planet.radius ray = none :=
    intersect_inside_none _ _ ray h2 hdir
  have hg : intersect_sphere (s.gas_center time) s.gas_giant.radius ray = none :=
    intersect_inside_none _ _ ray h3 hdir
  have hri : s.ray_intersect ray time = none := by
    simp only [Scene.ray_intersect, hs, hrk, hg]
  exact ⟨hri, by simp only [Scene.shadeRay, hri]⟩

/-- C10 witness: the ray from the world origin, strictly inside all three
unit bodies of `insideScene`, reports no scene hit. -/
theorem claim_C10_inside_sphere_no_hit_witness :
    dotV (insideRay.origin - insideScene.sun.center)
        (insideRay.origin - insideScene.sun.center) <
      insideScene.sun.radius * insideScene.sun.radius
    ∧ dotV (insideRay.origin - insideScene.rocky_center 0)
        (insideRay.origin - insideScene.rocky_center 0) <
      insideScene.rocky_planet.radius * insideScene.rocky_planet.radius
    ∧ dotV (insideRay.origin - insideScene.gas_center 0)
        (insideRay.origin - insideScene.gas_center 0) <
      insideScene.gas_giant.radius * insideScene.gas_giant.radius
    ∧ 0 < dotV insideRay.direction insideRay.direction
    ∧ insideScene.ray_intersect insideRay 0 = none := by
  have h1 : dotV (insideRay.origin - insideScene.sun.center)
      (insideRay.origin - insideScene.sun.center) <
      insideScene.sun.radius * insideScene.sun.radius := by
    norm_num [insideScene, insideRay, dotV]
  have h2 : dotV (insideRay.origin - insideScene.rocky_center 0)
      (insideRay.origin - insideScene.rocky_center 0) <
      insideScene.rocky_planet.radius * insideScene.rocky_planet.radius := by
    norm_num [insideScene, insideRay, dotV, Scene.rocky_center]
  have h3 : dotV (insideRay.origin - insideScene.gas_center 0)
      (insideRay.origin - insideScene.gas_center 0) <
      insideScene.gas_giant.radius * insideScene.gas_giant.radius := by
    norm_num [insideScene, insideRay, dotV, Scene.gas_center]
  have h4 : 0 < dotV insideRay.direction insideRay.direction := by
    norm_num [insideRay, dotV]
  exact ⟨h1, h2, h3, h4,
    (claim_C10_inside_sphere_no_hit.2 insideScene insideRay 0 h1 h2 h3 h4).1⟩

/-- The per-star skybox contribution as the spec words it: the star's tint
scaled by `((d - threshold) / (1 - threshold))² · brightness` exactly when
the dot product `d` is strictly above the threshold, zero otherwise. -/
def starContrib (rdir : Vec3) (st : Vec3 × ℝ × Vec3) : Vec3 :=
  if dotV rdir st.1 > threshold then
    (((dotV rdir st.1 - threshold) / (1 - threshold)) ^ (2 : ℕ) * st.2.1) • st.2.2
  else 0

/-- Componentwise sum of a list of vectors. -/
def vsum (l : List Vec3) : Vec3 := l.foldr (· + ·) 0

theorem foldl_skyStep (rdir : Vec3) (l : List (Vec3 × ℝ × Vec3)) (init : Vec3) :
    l.foldl (skyStep rdir) init = init + vsum (l.map (starContrib rdir)) := by
  induction l generalizing init with
  | nil => simp [vsum, Vec3.add_zero]
  | cons hd tl ih =>
    rw [List.foldl_cons, ih, List.map_cons]
    rw [show vsum (starContrib rdir hd :: tl.map (starContrib rdir)) =
        starContrib rdir hd + vsum (tl.map (starContrib rdir)) from rfl]
    rw [← Vec3.add_assoc]
    congr 1
    by_cases h : dotV rdir hd.1 > threshold
    · simp [skyStep, starContrib, h]
    · simp [skyStep, starContrib, h, Vec3.add_zero]

/-- C7: the skybox color is the constant ambient space color plus the sum,
over the star catalog, of each star's thresholded soft-falloff contribution,
computed from the ray direction rotated around Y; a rotated direction whose
dot product with a (single) star's direction is exactly 1 receives intensity
equal to that star's brightness, a dot product at or below the threshold
receives zero from that star, and a missed ray is shaded with the skybox at
rotation `sky_rotation + time·0.05`. -/
theorem claim_C7_skybox :
    (∀ (s : Scene) (dir : Vec3) (rotation : ℝ),
        s.skybox_color dir rotation =
          space_color + vsum (s.stars.map (starContrib (rotY dir rotation))))
    ∧ (∀ (s : Scene) (dir : Vec3) (rotation : ℝ) (sd tint : Vec3) (b : ℝ),
        s.stars = [(sd, b, tint)] →
        dotV (rotY dir rotation) sd = 1 →
        s.skybox_color dir rotation = space_color + b • tint)
    ∧ (∀ (s : Scene) (dir : Vec3) (rotation : ℝ) (sd tint : Vec3) (b : ℝ),
        s.stars = [(sd, b, tint)] →
        dotV (rotY dir rotation) sd ≤ threshold →
        s.skybox_color dir rotation = space_color)
    ∧ (∀ (s : Scene) (ray : Ray) (time : ℝ),
        s.ray_intersect ray time = none →
        s.shadeRay ray time =
          vec3_to_color (s.skybox_color ray.direction (s.sky_rotation + time * 0.05))) := by
  refine ⟨fun s dir rotation => ?_, fun s dir rotation sd tint b hstars hdot => ?_,
    fun s dir rotation sd tint b hstars hdot => ?_, fun s ray time h => ?_⟩
  · simp only [Scene.skybox_color, foldl_skyStep,
      show (⟨0, 0, 0⟩ : Vec3) = 0 from rfl, Vec3.zero_add]
  · simp only [Scene.skybox_color, hstars, List.foldl_cons, List.foldl_nil, skyStep]
    rw [hdot, if_pos (by norm_num [threshold])]
    rw [show ((1 : ℝ) - threshold) / (1 - threshold) = 1 from
      div_self (by norm_num [threshold])]
    rw [show (⟨0, 0, 0⟩ : Vec3) = 0 from rfl, Vec3.zero_add]
    norm_num
  · simp only [Scene.skybox_color, hstars, List.foldl_cons, List.foldl_nil, skyStep]
    rw [if_neg (not_lt.2 hdot)]
    rw [show (⟨0, 0, 0⟩ : Vec3) = 0 from rfl, Vec3.add_zero]
  · simp only [Scene.shadeRay, h]

theorem insideScene_ray_intersect_none :
    insideScene.ray_intersect insideRay 0 = none := by
  have hdir : 0 < dotV insideRay.direction insideRay.direction := by
    norm_num [insideRay, dotV]
  have hs : insideScene.sun.intersect insideRay = none := by
    rw [Sphere.intersect_eq]
    exact intersect_inside_none _ _ _ (by norm_num [insideScene, insideRay, dotV]) hdir
  have hrk : intersect_sphere (insideScene.rocky_center 0)
      insideScene.rocky_planet.radius insideRay = none :=
    intersect_inside_none _ _ _
      (by norm_num [insideScene, insideRay, dotV, Scene.rocky_center]) hdir
  have hg : intersect_sphere (insideScene.gas_center 0)
      insideScene.gas_giant.radius insideRay = none :=
    intersect_inside_none _ _ _
      (by norm_num [insideScene, insideRay, dotV, Scene.gas_center]) hdir
  simp only [Scene.ray_intersect, hs, hrk, hg]

/-- C7 witness: the one-star catalog of `insideScene`, sampled exactly along
the star's direction, at a direction orthogonal to it, and on a concrete
missed ray. -/
theorem claim_C7_skybox_witness :
    (insideScene.stars = [(⟨0, 0, 1⟩, 1 / 2, ⟨1, 1, 1⟩)]
      ∧ dotV (rotY ⟨0, 0, 1⟩ 0) ⟨0, 0, 1⟩ = 1
      ∧ insideScene.skybox_color ⟨0, 0, 1⟩ 0 =
          space_color + ((1 : ℝ) / 2) • (⟨1, 1, 1⟩ : Vec3))
    ∧ (dotV (rotY ⟨1, 0, 0⟩ 0) ⟨0, 0, 1⟩ ≤ threshold
      ∧ insideScene.skybox_color ⟨1, 0, 0⟩ 0 = space_color)
    ∧ (insideScene.ray_intersect insideRay 0 = none
      ∧ insideScene.shadeRay insideRay 0 =
          vec3_to_color (insideScene.skybox_color insideRay.direction
            (insideScene.sky_rotation + 0 * 0.05))) := by
  have h1 : dotV (rotY ⟨0, 0, 1⟩ 0) (⟨0, 0, 1⟩ : Vec3) = 1 := by
    norm_num [rotY, dotV]
  have h2 : dotV (rotY ⟨1, 0, 0⟩ 0) (⟨0, 0, 1⟩ : Vec3) ≤ threshold := by
    norm_num [rotY, dotV, threshold]
  exact ⟨⟨rfl, h1, claim_C7_skybox.2.1 insideScene ⟨0, 0, 1⟩ 0 ⟨0, 0, 1⟩ ⟨1, 1, 1⟩
      (1 / 2) rfl h1⟩,
    ⟨h2, claim_C7_skybox.2.2.1 insideScene ⟨1, 0, 0⟩ 0 ⟨0, 0, 1⟩ ⟨1, 1, 1⟩
      (1 / 2) rfl h2⟩,
    ⟨insideScene_ray_intersect_none,
      claim_C7_skybox.2.2.2 insideScene insideRay 0 insideScene_ray_intersect_none⟩⟩

/-- C2: the scene intersection tests the sun, then the rocky body at its
time-derived orbit center, then the gas giant at its time-derived orbit
center, in that order, keeping the candidate with smallest t and replacing a
held candidate only on strictly smaller t: the returned record's t is a
minimum of the present candidates, strict against later-tested bodies and
non-strict against earlier-tested ones, so exact ties return the
earlier-tested body's record; `Scene::new` puts the sun at the world
origin. -/
theorem claim_C2_closest_hit_order :
    (∀ (s : Scene) (ray : Ray) (time : ℝ),
      (s.ray_intersect ray time = none ↔
        s.sun.intersect ray = none ∧
        intersect_sphere (s.rocky_center time) s.rocky_planet.radius ray = none ∧
        intersect_sphere (s.gas_center time) s.gas_giant.radius ray = none)
      ∧ (∀ h : Hit, s.ray_intersect ray time = some h →
          (h.ty = 1 ∧ s.sun.intersect ray = some h.t
            ∧ h.point = ray.origin + h.t • ray.direction
            ∧ h.normal = s.sun.normal_at h.point
            ∧ (∀ tr, intersect_sphere (s.rocky_center time) s.rocky_planet.radius ray = some tr → h.t ≤ tr)
            ∧ (∀ tg, intersect_sphere (s.gas_center time) s.gas_giant.radius ray = some tg → h.t ≤ tg))
          ∨ (h.ty = 2 ∧ intersect_sphere (s.rocky_center time) s.rocky_planet.radius ray = some h.t
            ∧ h.point = ray.origin + h.t • ray.direction
            ∧ h.normal = normalizeV (h.point - s.rocky_center time)
            ∧ (∀ ts, s.sun.intersect ray = some ts → h.t < ts)
            ∧ (∀ tg, intersect_sphere (s.gas_center time) s.gas_giant.radius ray = some tg → h.t ≤ tg))
          ∨ (h.ty = 3 ∧ intersect_sphere (s.gas_center time) s.gas_giant.radius ray = some h.t
            ∧ h.point = ray.origin + h.t • ray.direction
            ∧ h.normal = normalizeV (h.point - s.gas_center time)
            ∧ (∀ ts, s.sun.intersect ray = some ts → h.t < ts)
            ∧ (∀ tr, intersect_sphere (s.rocky_center time) s.rocky_planet.radius ray = some tr → h.t < tr))))
    ∧ (∀ stars, (Scene.new stars).sun.center = (⟨0, 0, 0⟩ : Vec3)) := by
  refine ⟨fun s ray time => ?_, fun stars => rfl⟩
  simp only [Scene.ray_intersect]
  rcases hc1 : s.sun.intersect ray with _ | t1 <;>
    rcases hc2 : intersect_sphere (s.rocky_center time) s.rocky_planet.radius ray with _ | t2 <;>
    rcases hc3 : intersect_sphere (s.gas_center time) s.gas_giant.radius ray with _ | t3 <;>
    simp only [updateBest]
  · exact ⟨by simp, fun h hh => by simp at hh⟩
  · refine ⟨by simp, fun h hh => ?_⟩
    cases hh
    exact Or.inr (Or.inr ⟨rfl, rfl, rfl, rfl, fun t' h' => by simp at h',
      fun t' h' => by simp at h'⟩)
  · refine ⟨by simp, fun h hh => ?_⟩
    cases hh
    exact Or.inr (Or.inl ⟨rfl, rfl, rfl, rfl, fun t' h' => by simp at h',
      fun t' h' => by simp at h'⟩)
  · split_ifs with h32
    · refine ⟨by simp, fun h hh => ?_⟩
      cases hh
      refine Or.inr (Or.inr ⟨rfl, rfl, rfl, rfl, fun t' h' => by simp at h',
        fun t' h' => ?_⟩)
      obtain rfl : t2 = t' := by injection h'
      exact h32
    · refine ⟨by simp, fun h hh => ?_⟩
      cases hh
      refine Or.inr (Or.inl ⟨rfl, rfl, rfl, rfl, fun t' h' => by simp at h',
        fun t' h' => ?_⟩)
      obtain rfl : t3 = t' := by injection h'
      exact not_lt.1 h32
  · refine ⟨by simp, fun h hh => ?_⟩
    cases hh
    exact Or.inl ⟨rfl, rfl, rfl, rfl, fun t' h' => by simp at h',
      fun t' h' => by simp at h'⟩
  · split_ifs with h31
    · refine ⟨by simp, fun h hh => ?_⟩
      cases hh
      refine Or.inr (Or.inr ⟨rfl, rfl, rfl, rfl, fun t' h' => ?_,
        fun t' h' => by simp at h'⟩)
      obtain rfl : t1 = t' := by injection h'
      exact h31
    · refine ⟨by simp, fun h hh => ?_⟩
      cases hh
      refine Or.inl ⟨rfl, rfl, rfl, rfl, fun t' h' => by simp at h',
        fun t' h' => ?_⟩
      obtain rfl : t3 = t' := by injection h'
      exact not_lt.1 h31
  · split_ifs with h21
    · refine ⟨by simp, fun h hh => ?_⟩
      cases hh
      refine Or.inr (Or.inl ⟨rfl, rfl, rfl, rfl, fun t' h' => ?_,
        fun t' h' => by simp at h'⟩)
      obtain rfl : t1 = t' := by injection h'
      exact h21
    · refine ⟨by simp, fun h hh => ?_⟩
      cases hh
      refine Or.inl ⟨rfl, rfl, rfl, rfl, fun t' h' => ?_,
        fun t' h' => by simp at h'⟩
      obtain rfl : t2 = t' := by injection h'
      exact not_lt.1 h21
  · split_ifs with h21 <;> simp only [] <;> split_ifs with h3
    · refine ⟨by simp, fun h hh => ?_⟩
      cases hh
      refine Or.inr (Or.inr ⟨rfl, rfl, rfl, rfl, fun t' h' => ?_, fun t' h' => ?_⟩)
      · obtain rfl : t1 = t' := by injection h'
        linarith
      · obtain rfl : t2 = t' := by injection h'
        exact h3
    · refine ⟨by simp, fun h hh => ?_⟩
      cases hh
      refine Or.inr (Or.inl ⟨rfl, rfl, rfl, rfl, fun t' h' => ?_, fun t' h' => ?_⟩)
      · obtain rfl : t1 = t' := by injection h'
        exact h21
      · obtain rfl : t3 = t' := by injection h'
        exact not_lt.1 h3
    · refine ⟨by simp, fun h hh => ?_⟩
      cases hh
      refine Or.inr (Or.inr ⟨rfl, rfl, rfl, rfl, fun t' h' => ?_, fun t' h' => ?_⟩)
      · obtain rfl : t1 = t' := by injection h'
        exact h3
      · obtain rfl : t2 = t' := by injection h'
        linarith [not_lt.1 h21]
    · refine ⟨by simp, fun h hh => ?_⟩
      cases hh
      refine Or.inl ⟨rfl, rfl, rfl, rfl, fun t' h' => ?_, fun t' h' => ?_⟩
      · obtain rfl : t2 = t' := by injection h'
        exact not_lt.1 h21
      · obtain rfl : t3 = t' := by injection h'
        exact not_lt.1 h3

/-- A concrete scene for exercising the closest-hit and de-spin claims: the
sun and the gas giant are placed far from the test ray (both effectively at
(100,0,0)), while the rocky body's orbit puts it at (2,0,0) at time 0. -/
def testScene : Scene where
  camera := ⟨⟨0, 0, 10⟩, 0, ⟨0, 1, 0⟩, 1, 1⟩
  sun := ⟨⟨100, 0, 0⟩, 1⟩
  rocky_planet := ⟨⟨2, 0, 0⟩, 1⟩
  gas_giant := ⟨⟨100, 0, 0⟩, 1⟩
  stars := []
  sky_rotation := 0
  rocky_orbit_center := 0
  rocky_orbit_radius := 2
  rocky_orbit_speed := 0.6
  rocky_spin_speed := 2
  gas_orbit_center := 0
  gas_orbit_radius := 100
  gas_orbit_speed := 0.3
  gas_spin_speed := 1.2

/-- A concrete ray that passes in front of the rocky body's time-0 position. -/
def testRay : Ray := ⟨⟨2, 0, 5⟩, ⟨0, 0, -1⟩⟩

theorem testScene_rocky_center : testScene.rocky_center 0 = ⟨2, 0, 0⟩ := by
  ext <;> simp [Scene.rocky_center, testScene]

theorem testScene_gas_center : testScene.gas_center 0 = ⟨100, 0, 0⟩ := by
  ext <;> simp [Scene.gas_center, testScene]

theorem test_sun_none : testScene.sun.intersect testRay = none := by
  rw [Sphere.intersect_eq, intersect_sphere_eq_quad,
    if_pos (by norm_num [quadDisc, quadA, quadB, quadC, dotV, testScene, testRay])]

theorem test_rocky_some :
    intersect_sphere (testScene.rocky_center 0) testScene.rocky_planet.radius testRay =
      some 4 := by
  rw [testScene_rocky_center, show testScene.rocky_planet.radius = 1 from rfl,
    intersect_sphere_eq_quad]
  have hq : quadDisc ⟨2, 0, 0⟩ 1 testRay = 4 := by
    norm_num [quadDisc, quadA, quadB, quadC, dotV, testRay]
  have hb : quadB ⟨2, 0, 0⟩ testRay = -10 := by
    norm_num [quadB, dotV, testRay]
  have ha : quadA testRay = 1 := by
    norm_num [quadA, dotV, testRay]
  rw [hq, hb, ha, if_neg (by norm_num)]
  rw [show Real.sqrt 4 = 2 by
    rw [show (4 : ℝ) = 2 ^ 2 by norm_num, Real.sqrt_sq (by norm_num : (0:ℝ) ≤ 2)]]
  rw [show (-(-10 : ℝ) - 2) / (2 * 1) = 4 by norm_num]
  rw [if_pos (by norm_num)]

theorem test_gas_none :
    intersect_sphere (testScene.gas_center 0) testScene.gas_giant.radius testRay =
      none := by
  rw [testScene_gas_center, show testScene.gas_giant.radius = 1 from rfl,
    intersect_sphere_eq_quad,
    if_pos (by norm_num [quadDisc, quadA, quadB, quadC, dotV, testRay])]

theorem testScene_ray_intersect :
    testScene.ray_intersect testRay 0 = some ⟨4, ⟨2, 0, 1⟩, ⟨0, 0, 1⟩, 2⟩ := by
  simp only [Scene.ray_intersect, test_sun_none, test_rocky_some, test_gas_none,
    updateBest]
  rw [show testRay.origin + (4 : ℝ) • testRay.direction = ⟨2, 0, 1⟩ by
    ext <;> norm_num [testRay]]
  rw [testScene_rocky_center]
  rw [show (⟨2, 0, 1⟩ : Vec3) - ⟨2, 0, 0⟩ = ⟨0, 0, 1⟩ by ext <;> norm_num]
  rw [show normalizeV ⟨0, 0, 1⟩ = (⟨0, 0, 1⟩ : Vec3) by
    ext <;> norm_num [normalizeV, dotV]]

/-- C2 witness: on `testScene` at time 0 the closest hit is the rocky body at
t = 4, and the theorem instance yields that any sun candidate must be
strictly farther. -/
theorem claim_C2_closest_hit_order_witness :
    testScene.ray_intersect testRay 0 = some ⟨4, ⟨2, 0, 1⟩, ⟨0, 0, 1⟩, 2⟩ ∧
    ∀ ts, testScene.sun.intersect testRay = some ts → (4 : ℝ) < ts := by
  refine ⟨testScene_ray_intersect, ?_⟩
  have h := (claim_C2_closest_hit_order.1 testScene testRay 0).2 _ testScene_ray_intersect
  rcases h with h | h | h
  · exact absurd h.1 (by simp)
  · exact h.2.2.2.2.1
  · exact absurd h.1 (by simp)

/-- C4: whenever the pixel path hits an orbiting body, it shades the body
with the hit point and the normal both rotated around the world Y axis by the
same angle `-(spinSpeed·time)` — the point about the body's current orbit
center, the normal by the same rotation with no translation — and the
body's shader is invoked on the rotated pair; rotating a point about a
center is exactly the center plus the pure Y-rotation of the offset, and the
Y-rotation leaves the y component untouched. -/
theorem claim_C4_despin :
    (∀ (s : Scene) (ray : Ray) (time : ℝ) (h : Hit),
        s.ray_intersect ray time = some h →
        (h.ty = 2 →
          s.shadeRay ray time = vec3_to_color (rocky_shader
            (rotate_point_around_y h.point (s.rocky_center time)
              (-(s.rocky_spin_speed * time)))
            (rotate_vector_around_y h.normal (-(s.rocky_spin_speed * time)))
            ray.direction time))
        ∧ (h.ty = 3 →
          s.shadeRay ray time = vec3_to_color (gas_giant_shader
            (rotate_point_around_y h.point (s.gas_center time)
              (-(s.gas_spin_speed * time)))
            (rotate_vector_around_y h.normal (-(s.gas_spin_speed * time)))
            ray.direction time)))
    ∧ (∀ (p center : Vec3) (angle : ℝ),
        rotate_point_around_y p center angle =
          center + rotate_vector_around_y (p - center) angle)
    ∧ (∀ (v : Vec3) (angle : ℝ), (rotate_vector_around_y v angle).y = v.y) := by
  refine ⟨fun s ray time h hI => ?_, fun p center angle => ?_, fun v angle => rfl⟩
  · obtain ⟨t, p, n, ty⟩ := h
    refine ⟨fun hty => ?_, fun hty => ?_⟩
    · replace hty : ty = 2 := hty
      subst hty
      simp only [Scene.shadeRay, hI]
    · replace hty : ty = 3 := hty
      subst hty
      simp only [Scene.shadeRay, hI]
  · ext <;> simp [rotate_point_around_y, rotate_vector_around_y] <;> ring

/-- C4 witness: the concrete rocky-body hit of `testScene` is shaded through
the de-spin rotation pair. -/
theorem claim_C4_despin_witness :
    testScene.ray_intersect testRay 0 = some ⟨4, ⟨2, 0, 1⟩, ⟨0, 0, 1⟩, 2⟩ ∧
    (⟨4, ⟨2, 0, 1⟩, ⟨0, 0, 1⟩, 2⟩ : Hit).ty = 2 ∧
    testScene.shadeRay testRay 0 = vec3_to_color (rocky_shader
      (rotate_point_around_y ⟨2, 0, 1⟩ (testScene.rocky_center 0)
        (-(testScene.rocky_spin_speed * 0)))
      (rotate_vector_around_y ⟨0, 0, 1⟩ (-(testScene.rocky_spin_speed * 0)))
      testRay.direction 0) :=
  ⟨testScene_ray_intersect, rfl,
    (claim_C4_despin.1 testScene testRay 0 _ testScene_ray_intersect).1 rfl⟩

/-- Flattening the per-row map of a pixel grid (the renderer's
rows-then-extend loop) is the same list as one flat row-major map over all
pixel indices. -/
theorem grid_flatten (f : ℕ → ℕ → ℕ) (m : ℕ) (hm : 0 < m) :
    ∀ n, (((List.range n).map fun y => (List.range m).map fun x => f x y).foldl
        (fun buffer r => buffer ++ r) []) =
      (List.range (n * m)).map fun i => f (i % m) (i / m) := by
  intro n
  induction n with
  | zero => simp
  | succ n ih =>
    rw [List.range_succ, List.map_append, List.foldl_append, ih]
    simp only [List.map_cons, List.map_nil]
    rw [show ∀ acc : List ℕ, List.foldl (fun buffer r => buffer ++ r) acc
        [(List.range m).map fun x => f x n] = acc ++ (List.range m).map fun x => f x n
      from fun acc => rfl]
    rw [Nat.succ_mul, List.range_add, List.map_append, List.map_map]
    congr 1
    refine List.map_congr_left fun x hx => ?_
    have hxm : x < m := List.mem_range.1 hx
    have h1 : (n * m + x) % m = x := by
      rw [Nat.mul_comm, Nat.mul_add_mod, Nat.mod_eq_of_lt hxm]
    have h2 : (n * m + x) / m = n := by
      rw [Nat.mul_comm, Nat.mul_add_div hm, Nat.div_eq_of_lt hxm, Nat.add_zero]
    simp [h1, h2]

/-- C1: for every scene and time, `render` is a deterministic function of its
inputs — two calls agree; the buffer has length WIDTH·HEIGHT; the parallel
per-row map followed by the row-flattening loop equals the purely sequential
flat row-major per-pixel map; and the pixel at row-major index
`y·WIDTH + x` (top row first) is exactly the per-pixel computation at
(x, y). -/
theorem claim_C1_render_deterministic (s : Scene) (time : ℝ) :
    s.render time = s.render time
    ∧ (s.render time).length = WIDTH * HEIGHT
    ∧ s.render time = renderSeq s time
    ∧ ∀ x y, x < WIDTH → y < HEIGHT →
        (s.render time)[y * WIDTH + x]? = some (s.renderPixel time x y) := by
  have hm : 0 < WIDTH := by norm_num [WIDTH]
  have hseq : s.render time = renderSeq s time := by
    simp only [Scene.render, Scene.ray_casting, renderSeq]
    exact grid_flatten (fun x y => s.renderPixel time x y) WIDTH hm HEIGHT
  refine ⟨rfl, ?_, hseq, fun x y hx hy => ?_⟩
  · rw [hseq]
    simp [renderSeq, Nat.mul_comm]
  · rw [hseq]
    have hlt : y * WIDTH + x < HEIGHT * WIDTH := by
      simp only [WIDTH, HEIGHT] at hx hy ⊢
      omega
    have h1 : (y * WIDTH + x) % WIDTH = x := by
      simp only [WIDTH] at hx ⊢
      omega
    have h2 : (y * WIDTH + x) / WIDTH = y := by
      simp only [WIDTH] at hx ⊢
      omega
    simp only [renderSeq, List.getElem?_map, List.getElem?_range, hlt, if_pos]
    simp [h1, h2]

/-- C1 witness: the instance of the row-major indexing property at pixel
(0, 0) of a concrete scene. -/
theorem claim_C1_render_deterministic_witness :
    (0 : ℕ) < WIDTH ∧ (0 : ℕ) < HEIGHT ∧
    ((Scene.new []).render 0)[0 * WIDTH + 0]? =
      some ((Scene.new []).renderPixel 0 0 0) :=
  ⟨by norm_num [WIDTH], by norm_num [HEIGHT],
    (claim_C1_render_deterministic (Scene.new []) 0).2.2.2 0 0
      (by norm_num [WIDTH]) (by norm_num [HEIGHT])⟩

end SolarSystem
